import Mathlib

/-!
Verification development for the kakao-skill webhook relay (`src/app.py`).

The Python source is shallowly embedded below.  Conventions:

* JSON payloads are modelled by the inductive type `J`.
* All wall-clock times are natural numbers.  The rate limiter (which works
  in whole seconds: `now = int(time.time())`) uses seconds; the background
  callback worker (whose sleeps are fractions of a second) uses integer
  milliseconds, with the float growth factor `1.6` embedded as `* 8 / 5`.
* `to_plain_text` is a Markdown/HTML stripping utility; it is passed around
  as an abstract function `tpt : String → String` (the design documents
  treat it as an external text utility, and no claim depends on its
  internals).  `kakao_text`'s `to_plain_text(text) or ""` wrapping is
  modelled by `applyTpt`.
* The backend (`call_chatling`) performs network I/O; it is modelled by an
  oracle `Nat → Option String` mapping the attempt index to the normalized
  text the call produces (`none` = timeout / transport error / non-2xx /
  missing credentials / empty extraction, exactly the cases in which the
  Python function returns `None`).
-/

/-- JSON values (the payloads handled by the webhook). -/
inductive J where
  | null : J
  | bool (b : Bool) : J
  | num (n : Int) : J
  | str (s : String) : J
  | arr (xs : List J) : J
  | obj (fields : List (String × J)) : J

mutual

/-- Boolean equality on JSON values (deriving does not support the nested
occurrence of `J` under `List`). -/
def jBeq : J → J → Bool
  | .null, .null => true
  | .bool a, .bool b => a == b
  | .num a, .num b => a == b
  | .str a, .str b => a == b
  | .arr a, .arr b => jBeqList a b
  | .obj a, .obj b => jBeqFields a b
  | _, _ => false

/-- Boolean equality on JSON arrays. -/
def jBeqList : List J → List J → Bool
  | [], [] => true
  | x :: xs, y :: ys => jBeq x y && jBeqList xs ys
  | _, _ => false

/-- Boolean equality on JSON object field lists. -/
def jBeqFields : List (String × J) → List (String × J) → Bool
  | [], [] => true
  | (k1, v1) :: xs, (k2, v2) :: ys => k1 == k2 && jBeq v1 v2 && jBeqFields xs ys
  | _, _ => false

end

mutual

/-- `jBeq` decides equality of JSON values. -/
def jBeq_iff : (a b : J) → (jBeq a b = true ↔ a = b)
  | J.null, b => by cases b <;> simp [jBeq]
  | J.bool x, b => by cases b <;> simp [jBeq]
  | J.num x, b => by cases b <;> simp [jBeq]
  | J.str x, b => by cases b <;> simp [jBeq]
  | J.arr xs, J.arr ys => by simpa [jBeq] using jBeqList_iff xs ys
  | J.arr xs, J.null => by simp [jBeq]
  | J.arr xs, J.bool _ => by simp [jBeq]
  | J.arr xs, J.num _ => by simp [jBeq]
  | J.arr xs, J.str _ => by simp [jBeq]
  | J.arr xs, J.obj _ => by simp [jBeq]
  | J.obj fs, J.obj gs => by simpa [jBeq] using jBeqFields_iff fs gs
  | J.obj fs, J.null => by simp [jBeq]
  | J.obj fs, J.bool _ => by simp [jBeq]
  | J.obj fs, J.num _ => by simp [jBeq]
  | J.obj fs, J.str _ => by simp [jBeq]
  | J.obj fs, J.arr _ => by simp [jBeq]

/-- `jBeqList` decides equality of JSON arrays. -/
def jBeqList_iff : (a b : List J) → (jBeqList a b = true ↔ a = b)
  | [], [] => by simp [jBeqList]
  | [], _ :: _ => by simp [jBeqList]
  | _ :: _, [] => by simp [jBeqList]
  | x :: xs, y :: ys => by
    simpa [jBeqList, Bool.and_eq_true] using
      Iff.and (jBeq_iff x y) (jBeqList_iff xs ys)

/-- `jBeqFields` decides equality of JSON object field lists. -/
def jBeqFields_iff : (a b : List (String × J)) → (jBeqFields a b = true ↔ a = b)
  | [], [] => by simp [jBeqFields]
  | [], _ :: _ => by simp [jBeqFields]
  | _ :: _, [] => by simp [jBeqFields]
  | (k1, v1) :: xs, (k2, v2) :: ys => by
    simp [jBeqFields, Bool.and_eq_true, jBeq_iff v1 v2, jBeqFields_iff xs ys]

end

instance : DecidableEq J := fun a b => decidable_of_iff _ (jBeq_iff a b)

/-- Key lookup in a JSON object field list (Python `dict` access). -/
def lookupKey (fs : List (String × J)) (k : String) : Option J :=
  (fs.find? (fun p => p.1 == k)).map (fun p => p.2)

/-- One step of `_get`: `cur[k]` when `cur` is a dict containing `k`. -/
def jget (j : J) (k : String) : Option J :=
  match j with
  | J.obj fs => lookupKey fs k
  | _ => none

/-- `_get(d, *path)` from `src/app.py`: walk nested dicts, `None` on miss. -/
def jpath (j : J) (path : List String) : Option J :=
  path.foldlM jget j

/-- Python truthiness of a JSON value. -/
def jtruthy : J → Bool
  | J.null => false
  | J.bool b => b
  | J.num n => n != 0
  | J.str s => s != ""
  | J.arr xs => !xs.isEmpty
  | J.obj fs => !fs.isEmpty

/-- Python `str.strip()`: drop whitespace from both ends (modelled over the
character list so that it evaluates by kernel reduction). -/
def pyStrip (s : String) : String :=
  String.mk (((s.data.dropWhile Char.isWhitespace).reverse.dropWhile Char.isWhitespace).reverse)

/-- The inner `clean` of `pick_utter`: keep a stripped string that is
non-empty and not the literal placeholder token `"@text"`. -/
def cleanUtter : Option J → Option String
  | some (J.str s) =>
    let v := pyStrip s
    if v ≠ "" ∧ v ≠ "@text" then some v else none
  | _ => none

/-- `pick_utter` from `src/app.py`: first candidate `action.params.usrtext`,
second `userRequest.utterance`; Python `u1 or u2` (`clean` never returns an
empty string, so `or` is `Option` choice). -/
def pick_utter (p : J) : Option String :=
  match cleanUtter (jpath p ["action", "params", "usrtext"]) with
  | some v => some v
  | none => cleanUtter (jpath p ["userRequest", "utterance"])

/-- The prioritized field names scanned by `extract_answer`. -/
def answerKeys : List String := ["response", "message", "answer", "text", "content", "reply"]

/-- `isinstance(v, str) and v.strip()`: a string whose strip is non-empty. -/
def stripTruthy (v : Option J) : Option String :=
  match v with
  | some (J.str s) =>
    let t := pyStrip s
    if t ≠ "" then some t else none
  | _ => none

/-- The prioritized key scan of `extract_answer` over one dict. -/
def scanKeys (fs : List (String × J)) : Option String :=
  answerKeys.foldl
    (fun acc k =>
      match acc with
      | some r => some r
      | none => stripTruthy (lookupKey fs k)) none

/-- `js["choices"][0]["message"]["content"].strip()` with every indexing or
attribute failure caught (`except: pass` → `none`).  A successful lookup
returns the stripped content even when it is empty. -/
def choicesPath (fs : List (String × J)) : Option String :=
  match lookupKey fs "choices" with
  | some (J.arr (x :: _)) =>
    match x with
    | J.obj xf =>
      match lookupKey xf "message" with
      | some (J.obj mf) =>
        match lookupKey mf "content" with
        | some (J.str c) => some (pyStrip c)
        | _ => none
      | _ => none
    | _ => none
  | _ => none

mutual

/-- `extract_answer` from `src/app.py`: prioritized top-level key scan, then
the same scan inside a nested `data` dict, then the OpenAI-style
`choices[0].message.content` path; lists are searched for the first truthy
result. -/
def extract_answer : J → Option String
  | J.obj fs =>
    match scanKeys fs with
    | some r => some r
    | none =>
      match lookupKey fs "data" with
      | some (J.obj dfs) =>
        match scanKeys dfs with
        | some r => some r
        | none => choicesPath fs
      | _ => choicesPath fs
  | J.arr xs => extractFromList xs
  | _ => none

/-- The list branch of `extract_answer`: `if a: return a` keeps only truthy
(non-empty) results and otherwise continues. -/
def extractFromList : List J → Option String
  | [] => none
  | x :: rest =>
    match extract_answer x with
    | some a => if a = "" then extractFromList rest else some a
    | none => extractFromList rest

end

/-- Rate-limit and ban configuration (the `RL_*` / `SPAM_*` environment
variables of `src/app.py`, with their default values). -/
structure RLConfig where
  perMin : Nat := 10
  perHour : Nat := 200
  perDay : Nat := 1000
  cooldownShort : Nat := 600
  banDays : Nat := 30
  strikeWindowDays : Nat := 7
  burstN : Nat := 10
  burstS : Nat := 2
deriving DecidableEq, Repr

/-- The default configuration (all environment variables unset). -/
def defaultRL : RLConfig := {}

/-- One `{count, exp}` window bucket of `_mem_buckets`. -/
structure MemBucket where
  count : Nat
  exp : Nat
deriving DecidableEq, Repr

/-- One user's entry in `_mem_buckets`. -/
structure UserState where
  ban_exp : Nat
  burst : List Nat
  m : MemBucket
  h : MemBucket
  d : MemBucket
  strikes : Nat
  strike_exp : Nat
deriving DecidableEq, Repr

/-- The `defaultdict` default value of `_mem_buckets`. -/
def freshUser : UserState :=
  { ban_exp := 0, burst := [], m := ⟨0, 0⟩, h := ⟨0, 0⟩, d := ⟨0, 0⟩
  , strikes := 0, strike_exp := 0 }

/-- `_fmt_remain_ko` from `src/app.py`. -/
def fmtRemainKo (seconds : Nat) : String :=
  if seconds = 0 then "잠시 후"
  else
    let d := seconds / 86400
    let r := seconds % 86400
    let h := r / 3600
    let r2 := r % 3600
    let m := r2 / 60
    let s := r2 % 60
    if d ≠ 0 then s!"{d}일 {h}시간"
    else if h ≠ 0 then s!"{h}시간 {m}분"
    else if m ≠ 0 then s!"{m}분 {s}초"
    else s!"{s}초"

/-- Ban denial message (short-cooldown wording). -/
def banShortMsg (remain : Nat) : String :=
  let r := fmtRemainKo remain
  s!"이용이 제한되어 있어요. {r} 후 다시 시도해 주세요."

/-- Ban denial message (escalated, near-maximum-duration wording). -/
def banEscalatedMsg (remain : Nat) : String :=
  let r := fmtRemainKo remain
  s!"반복적인 과도 이용으로 이용이 제한되어 있어요. {r} 후 다시 이용해 주세요."

/-- The ban-stage denial message: escalated wording when the remaining time
is at least `(RL_BAN_DAYS - 1)` days. -/
def banMsgOf (cfg : RLConfig) (remain : Nat) : String :=
  if remain ≥ (cfg.banDays - 1) * 86400 then banEscalatedMsg remain
  else banShortMsg remain

/-- The 30-day long-ban message issued on a second-or-later strike. -/
def longBanMsg : String :=
  "반복적인 과도 이용으로 30일 동안 이용이 제한되었어요. 문의가 필요하면 고객센터로 연락해 주세요."

/-- Burst-violation short-cooldown warning. -/
def burstWarnMsg (cfg : RLConfig) : String :=
  let r := fmtRemainKo cfg.cooldownShort
  s!"요청이 너무 빠르게 이어지고 있어요. {r} 후 다시 이용해 주세요. 같은 현상이 반복되면 최대 30일 동안 이용이 제한될 수 있어요."

/-- Minute-quota short-cooldown warning. -/
def minuteWarnMsg (cfg : RLConfig) : String :=
  let r := fmtRemainKo cfg.cooldownShort
  s!"요청이 많아 이용이 잠시 제한되었어요. {r} 후 다시 이용해 주세요. 같은 현상이 반복되면 최대 30일 동안 이용이 제한될 수 있어요."

/-- Hour-quota denial message. -/
def hourLimitMsg (cfg : RLConfig) : String :=
  let r := fmtRemainKo cfg.cooldownShort
  s!"시간당 이용 한도에 도달했어요. {r} 후 다시 이용해 주세요. 같은 현상이 반복되면 최대 30일 동안 이용이 제한될 수 있어요."

/-- Day-quota denial message. -/
def dayLimitMsg : String :=
  "일일 이용 한도를 초과했어요. 30일 동안 이용이 제한될 수 있어요."

/-- `_incr_mem_bucket` from `src/app.py`: lazy reset when the window has
expired (strict `now > exp`), then increment; returns the new count. -/
def incr_mem_bucket (bkt : MemBucket) (window_s now : Nat) : Nat × MemBucket :=
  let b := if now > bkt.exp then ({ count := 0, exp := now + window_s } : MemBucket) else bkt
  let b2 := { b with count := b.count + 1 }
  (b2.count, b2)

/-- The duplicated strike-escalation block of `rate_limit_check_and_message`
(in-memory branch): reset an expired strike window, add one strike, and
impose the long ban on a second-or-later strike, else the short cooldown.
Returns `true` when the long ban was imposed. -/
def strikeEscalate (cfg : RLConfig) (now : Nat) (u : UserState) : Bool × UserState :=
  let u1 := if u.strike_exp < now
    then { u with strikes := 0, strike_exp := now + cfg.strikeWindowDays * 86400 }
    else u
  let u2 := { u1 with strikes := u1.strikes + 1 }
  if u2.strikes ≥ 2 then (true, { u2 with ban_exp := now + cfg.banDays * 86400 })
  else (false, { u2 with ban_exp := now + cfg.cooldownShort })

/-- `rate_limit_check_and_message` from `src/app.py`, in-memory branch
(the default `_redis is None` configuration).  Stages in source order:
existing ban, burst window, minute quota (with strike escalation), hour
quota (short cooldown only), day quota (direct long ban).  Returns the
`(allowed, message)` pair together with the user's updated bucket state. -/
def rate_limit_check_and_message (cfg : RLConfig) (now : Nat) (u : UserState) :
    (Bool × Option String) × UserState :=
  if now < u.ban_exp then
    ((false, some (banMsgOf cfg (u.ban_exp - now))), u)
  else
    let burst1 := u.burst.filter (fun t => now - t ≤ cfg.burstS) ++ [now]
    let u1 := { u with burst := burst1 }
    if burst1.length > cfg.burstN then
      let p := strikeEscalate cfg now u1
      if p.1 then ((false, some longBanMsg), p.2)
      else ((false, some (burstWarnMsg cfg)), p.2)
    else
      let pm := incr_mem_bucket u1.m 60 now
      let u2 := { u1 with m := pm.2 }
      if pm.1 > cfg.perMin then
        let p := strikeEscalate cfg now u2
        if p.1 then ((false, some longBanMsg), p.2)
        else ((false, some (minuteWarnMsg cfg)), p.2)
      else
        let ph := incr_mem_bucket u2.h 3600 now
        let u3 := { u2 with h := ph.2 }
        if ph.1 > cfg.perHour then
          ((false, some (hourLimitMsg cfg)), { u3 with ban_exp := now + cfg.cooldownShort })
        else
          let pd := incr_mem_bucket u3.d 86400 now
          let u4 := { u3 with d := pd.2 }
          if pd.1 > cfg.perDay then
            ((false, some dayLimitMsg), { u4 with ban_exp := now + cfg.banDays * 86400 })
          else
            ((true, none), u4)

/-- The fixed "please wait" acknowledgment text (`WAIT_TEXT` default). -/
def WAIT_TEXT : String := "답을 찾는 중이에요… 잠시만요!"

/-- The clarification prompt for an empty resolved utterance. -/
def clarifyText : String := "무슨 말씀인지 조금만 더 자세히 알려주세요 🙂"

/-- The fixed congestion fallback text, used both by the synchronous path
and by the background callback worker on budget exhaustion. -/
def congestedFallback : String := "지금은 답변 서버가 혼잡해요. 잠시 뒤에 다시 시도해 주세요."

/-- `to_plain_text(text) or ""` as performed by `kakao_text`: the external
stripper `tpt` maps the empty string to itself, and a falsy result becomes
`""`. -/
def applyTpt (tpt : String → String) (s : String) : String :=
  if s = "" then "" else tpt s

/-- The two HTTP-200 response shapes the webhook can produce: the
`simpleText` envelope of `kakao_text`, and the `useCallback` deferred
acknowledgment. -/
inductive KResp where
  | text (s : String) : KResp
  | useCallback (wait : String) : KResp
deriving DecidableEq, Repr

/-- `kakao_text` from `src/app.py` (envelope body text only; the HTTP
status is always 200). -/
def kakao_text (tpt : String → String) (s : String) : KResp :=
  KResp.text (applyTpt tpt s)

/-- Observable side effects of one webhook invocation: how many synchronous
backend calls were issued, and whether a background worker thread was
spawned. -/
structure Effects where
  backendCalls : Nat
  spawnedWorker : Bool
deriving DecidableEq, Repr

/-- `user_id = _get(data, "userRequest", "user", "id") or "anon"`. -/
def userKeyOf (p : J) : J :=
  match jpath p ["userRequest", "user", "id"] with
  | some v => if jtruthy v then v else J.str "anon"
  | none => J.str "anon"

/-- Truthiness of the callback address field (`if callback_url:`). -/
def cbTruthy (p : J) : Bool :=
  match jpath p ["userRequest", "callbackUrl"] with
  | some v => jtruthy v
  | none => false

/-- The `/webhook` POST handler of `src/app.py` in the in-memory
configuration: derive the user key, run the rate-limit check (updating that
key's bucket state), deny early, otherwise resolve the utterance, answer
empty utterances with the clarification prompt, spawn the background worker
when a truthy callback address is present, and otherwise make exactly one
synchronous backend call (`call_chatling(utter, SYNC_TIMEOUT)`), replying
with its answer or the fixed fallback.  The `last_request` diagnostic
snapshot and the callback token header are advisory and not modelled. -/
def webhook (cfg : RLConfig) (tpt : String → String) (oracle : Nat → Option String)
    (now : Nat) (store : J → UserState) (payload : J) :
    KResp × (J → UserState) × Effects :=
  let key := userKeyOf payload
  let rl := rate_limit_check_and_message cfg now (store key)
  let store' := Function.update store key rl.2
  if rl.1.1 then
    match pick_utter payload with
    | none => (kakao_text tpt clarifyText, store', ⟨0, false⟩)
    | some _ =>
      if cbTruthy payload then
        (KResp.useCallback WAIT_TEXT, store', ⟨0, true⟩)
      else
        let ans := oracle 0
        (kakao_text tpt (match ans with
          | some s => if s = "" then congestedFallback else s
          | none => congestedFallback), store', ⟨1, false⟩)
  else
    (kakao_text tpt (rl.1.2.getD ""), store', ⟨0, false⟩)

/-!
## Redis-backed configuration

When `REDIS_URL` is set, the rate limiter uses the shared store through
`_redis_ttl` / `_redis_incr_with_ttl` / `_redis_setex` / `_redis_get_int`.
Of these, only `_redis_ttl` and `_redis_get_int` catch exceptions; a failing
store makes `_redis_incr_with_ttl` (and `_redis_setex`) raise, and neither
`rate_limit_check_and_message` nor `webhook` has any `try`/`except` or error
handler around them.  Fallible operations are therefore modelled in
`Except Unit`.
-/

/-- A Redis key: the prefix of the f-string (`"ban"`, `"burst"`, `"str"`,
`"m"`, `"h"`, `"d"`) paired with the user key (the formatting
`f"ban:{user_id}"` is injective across distinct users). -/
def RKey : Type := String × J

instance : DecidableEq RKey := instDecidableEqProd

/-- The shared store: a failure flag (the connection is down and operations
raise) and the live data, each key holding an integer value with an
absolute expiry time. -/
structure RStore where
  failing : Bool
  data : RKey → Option (Nat × Nat)

/-- A key's live entry: present and not yet expired. -/
def rGetLive (now : Nat) (st : RStore) (k : RKey) : Option (Nat × Nat) :=
  match st.data k with
  | some (v, e) => if now < e then some (v, e) else none
  | none => none

/-- `_redis_ttl`: remaining TTL in seconds; `0` for missing or expired keys
and on any exception (the `except` clause returns 0). -/
def rTtl (now : Nat) (st : RStore) (k : RKey) : Nat :=
  if st.failing then 0
  else
    match rGetLive now st k with
    | some (_, e) => e - now
    | none => 0

/-- `_redis_incr_with_ttl`: atomic increment, creating the key with the
window TTL when absent; raises (uncaught in the source) when the store is
failing. -/
def rIncrWithTtl (now : Nat) (st : RStore) (k : RKey) (window_s : Nat) :
    Except Unit (Nat × RStore) :=
  if st.failing then Except.error ()
  else
    match rGetLive now st k with
    | some (v, e) =>
      Except.ok (v + 1, { st with data := fun x => if x = k then some (v + 1, e) else st.data x })
    | none =>
      Except.ok (1, { st with data := fun x => if x = k then some (1, now + window_s) else st.data x })

/-- `_redis_setex` (raises when the store is failing; not caught). -/
def rSetex (now : Nat) (st : RStore) (k : RKey) (seconds v : Nat) :
    Except Unit RStore :=
  if st.failing then Except.error ()
  else Except.ok { st with data := fun x => if x = k then some (v, now + seconds) else st.data x }

/-- `_redis_get_int` (exceptions caught, returning the default). -/
def rGetInt (now : Nat) (st : RStore) (k : RKey) (dflt : Nat) : Nat :=
  if st.failing then dflt
  else
    match rGetLive now st k with
    | some (v, _) => v
    | none => dflt

/-- `rate_limit_check_and_message`, Redis branch: same staging as the
in-memory branch, but burst detection is a counter with a short TTL, and
strikes are read-increment-setex.  Store failures propagate as
`Except.error`. -/
def rate_limit_check_redis (cfg : RLConfig) (now : Nat) (st : RStore) (user : J) :
    Except Unit ((Bool × Option String) × RStore) := do
  let banTtl := rTtl now st ("ban", user)
  if 0 < banTtl then
    return ((false, some (banMsgOf cfg banTtl)), st)
  else
    let p1 ← rIncrWithTtl now st ("burst", user) cfg.burstS
    let st1 := p1.2
    if p1.1 > cfg.burstN then
      let strikes := rGetInt now st1 ("str", user) 0 + 1
      let st2 ← rSetex now st1 ("str", user) (cfg.strikeWindowDays * 86400) strikes
      if strikes ≥ 2 then
        let st3 ← rSetex now st2 ("ban", user) (cfg.banDays * 86400) 1
        return ((false, some longBanMsg), st3)
      else
        let st3 ← rSetex now st2 ("ban", user) cfg.cooldownShort 1
        return ((false, some (burstWarnMsg cfg)), st3)
    else
      let p2 ← rIncrWithTtl now st1 ("m", user) 60
      let st2 := p2.2
      if p2.1 > cfg.perMin then
        let strikes := rGetInt now st2 ("str", user) 0 + 1
        let st3 ← rSetex now st2 ("str", user) (cfg.strikeWindowDays * 86400) strikes
        if strikes ≥ 2 then
          let st4 ← rSetex now st3 ("ban", user) (cfg.banDays * 86400) 1
          return ((false, some longBanMsg), st4)
        else
          let st4 ← rSetex now st3 ("ban", user) cfg.cooldownShort 1
          return ((false, some (minuteWarnMsg cfg)), st4)
      else
        let p3 ← rIncrWithTtl now st2 ("h", user) 3600
        let st3 := p3.2
        if p3.1 > cfg.perHour then
          let st4 ← rSetex now st3 ("ban", user) cfg.cooldownShort 1
          return ((false, some (hourLimitMsg cfg)), st4)
        else
          let p4 ← rIncrWithTtl now st3 ("d", user) 86400
          let st4 := p4.2
          if p4.1 > cfg.perDay then
            let st5 ← rSetex now st4 ("ban", user) (cfg.banDays * 86400) 1
            return ((false, some dayLimitMsg), st5)
          else
            return ((true, none), st4)

/-- The `/webhook` handler in the Redis configuration.  The handler itself
has no `try`/`except` and the Flask app registers no error handler, so an
exception raised inside the rate-limit check propagates out of the handler
(Flask then produces a 500 response, not the Kakao envelope). -/
def webhook_redis (cfg : RLConfig) (tpt : String → String) (oracle : Nat → Option String)
    (now : Nat) (st : RStore) (payload : J) :
    Except Unit (KResp × RStore × Effects) := do
  let key := userKeyOf payload
  let pr ← rate_limit_check_redis cfg now st key
  let rl := pr.1
  let st' := pr.2
  if rl.1 then
    match pick_utter payload with
    | none => return (kakao_text tpt clarifyText, st', ⟨0, false⟩)
    | some _ =>
      if cbTruthy payload then
        return (KResp.useCallback WAIT_TEXT, st', ⟨0, true⟩)
      else
        let ans := oracle 0
        return (kakao_text tpt (match ans with
          | some s => if s = "" then congestedFallback else s
          | none => congestedFallback), st', ⟨1, false⟩)
  else
    return (kakao_text tpt (rl.2.getD ""), st', ⟨0, false⟩)

/-!
## Background callback worker (`bg_worker` / `send_callback`)

Times are integer milliseconds.  `deadline = time.time() + min(BG_BUDGET_S, 50)`
with the worker's start as time 0; the default `BG_BUDGET_S = 50` and
`BG_TRY_TIMEOUT = 40.0` give `bgBudgetMs = 50000` and
`bgTryTimeoutMs = 40000`.  The sleep sequence starts at 350 ms, each actual
sleep is capped at 2000 ms, and the growth factor 1.6 is `* 8 / 5`.

The backend is an oracle giving, per attempt index, the wall-clock duration
the call would need and the text it would produce (`none` = failure).  A
call whose duration exceeds the granted timeout times out (`None`), and the
elapsed time is clamped to the timeout.  The loop is written on explicit
fuel (`none` = fuel exhausted); `bg_worker` supplies fuel that is provably
sufficient because every failing iteration advances time by at least the
minimum sleep of 350 ms.

A `BgEvent.call` records a backend attempt's start; a `BgEvent.callback`
records the single `send_callback` invocation (the delivery attempt) and
its start time.
-/

/-- Observable events of one `bg_worker` run. -/
inductive BgEvent where
  | call (idx tstart : Nat) : BgEvent
  | callback (text : String) (t : Nat) : BgEvent
deriving DecidableEq, Repr

/-- Default callback budget, milliseconds (`BG_BUDGET_S = 50`). -/
def bgBudgetMs : Nat := 50000

/-- Default per-attempt read timeout, milliseconds (`BG_TRY_TIMEOUT = 40`). -/
def bgTryTimeoutMs : Nat := 40000

/-- `deadline = time.time() + min(BG_BUDGET_S, 50)` with start time 0. -/
def bgDeadlineMs : Nat := min bgBudgetMs 50000

/-- The retry loop of `bg_worker`: while before the deadline, call the
backend with timeout `min(BG_TRY_TIMEOUT, max(0.1, deadline - now))`, break
on a truthy result, otherwise sleep `min(sleep, 2.0)` and grow `sleep` by
1.6; after the loop, `send_callback` once with the result or the fixed
fallback. -/
def bg_worker_loop (oracle : Nat → Nat × Option String) (deadline : Nat) :
    Nat → Nat → Nat → Nat → Option (List BgEvent)
  | 0, _, _, _ => none
  | fuel + 1, now, sleep, idx =>
    if now < deadline then
      let dur := (oracle idx).1
      let tmo := min bgTryTimeoutMs (max 100 (deadline - now))
      let fin := now + min dur tmo
      let res := if dur ≤ tmo then (oracle idx).2 else none
      match res with
      | some t =>
        if t = "" then
          (bg_worker_loop oracle deadline fuel (fin + min sleep 2000) (sleep * 8 / 5) (idx + 1)).map
            (fun evs => BgEvent.call idx now :: evs)
        else some [BgEvent.call idx now, BgEvent.callback t fin]
      | none =>
        (bg_worker_loop oracle deadline fuel (fin + min sleep 2000) (sleep * 8 / 5) (idx + 1)).map
          (fun evs => BgEvent.call idx now :: evs)
    else
      some [BgEvent.callback congestedFallback now]

/-- `bg_worker` from `src/app.py`: run the retry loop from time 0 with the
initial 350 ms sleep and sufficient fuel. -/
def bg_worker (oracle : Nat → Nat × Option String) : Option (List BgEvent) :=
  bg_worker_loop oracle bgDeadlineMs ((bgDeadlineMs + 349) / 350 + 1) 0 350 0

/-- Number of callback deliveries in an event trace. -/
def countCallbacks (evs : List BgEvent) : Nat :=
  evs.countP (fun e => match e with | BgEvent.callback _ _ => true | _ => false)

/-- Start times of the callback deliveries in an event trace. -/
def callbackTimes (evs : List BgEvent) : List Nat :=
  evs.filterMap (fun e => match e with | BgEvent.callback _ t => some t | _ => none)

/-- The payload's nested user identifier is absent or falsy (`_get(...) or
"anon"` picks the fallback sentinel). -/
def anonLike (p : J) : Bool :=
  match jpath p ["userRequest", "user", "id"] with
  | some v => !jtruthy v
  | none => true

/-- Full behaviour of the `bg_worker` retry loop, by induction on fuel:
with the 350 ms minimum sleep, sufficient fuel never runs out; the trace
contains exactly one callback delivery; every delivery starts no later than
2100 ms past the deadline; and when every backend call fails the delivered
text is the fixed fallback. -/
theorem bg_worker_loop_spec (oracle : Nat → Nat × Option String) (deadline : Nat) :
    ∀ fuel now sleep idx, 350 ≤ sleep → (deadline - now + 349) / 350 + 1 ≤ fuel →
      now ≤ deadline + 2100 →
      ∃ evs, bg_worker_loop oracle deadline fuel now sleep idx = some evs ∧
        countCallbacks evs = 1 ∧
        (∀ t tm, BgEvent.callback t tm ∈ evs → tm ≤ deadline + 2100) ∧
        ((∀ i, (oracle i).2 = none) → ∀ t tm, BgEvent.callback t tm ∈ evs → t = congestedFallback) := by
  intro fuel
  induction fuel with
  | zero =>
    intro now sleep idx _ h2 _
    exact absurd h2 (by omega)
  | succ f ih =>
    intro now sleep idx hsleep hfuel hnowbound
    by_cases hnow : now < deadline
    · have hfin : now + min (oracle idx).1 (min bgTryTimeoutMs (max 100 (deadline - now))) ≤ deadline + 100 := by
        have h1 : min (oracle idx).1 (min bgTryTimeoutMs (max 100 (deadline - now))) ≤ max 100 (deadline - now) :=
          le_trans (min_le_right _ _) (min_le_right _ _)
        have h2 : max 100 (deadline - now) ≤ 100 + (deadline - now) := max_le (by omega) (by omega)
        omega
      have hmin350 : 350 ≤ min sleep 2000 := le_min hsleep (by omega)
      have hsleep' : 350 ≤ sleep * 8 / 5 := by omega
      simp only [bg_worker_loop]
      rw [if_pos hnow]
      cases hres : (if (oracle idx).1 ≤ min bgTryTimeoutMs (max 100 (deadline - now)) then (oracle idx).2 else none) with
      | none =>
        obtain ⟨evs', he', hc', htm', hf'⟩ :=
          ih (now + min (oracle idx).1 (min bgTryTimeoutMs (max 100 (deadline - now))) + min sleep 2000)
            (sleep * 8 / 5) (idx + 1) hsleep' (by omega) (by omega)
        refine ⟨BgEvent.call idx now :: evs', by rw [he']; rfl, ?_, ?_, ?_⟩
        · simp [countCallbacks, List.countP_cons] at hc' ⊢
          exact hc'
        · intro t tm hm
          rcases List.mem_cons.mp hm with h | h
          · exact absurd h (by simp)
          · exact htm' t tm h
        · intro hfail t tm hm
          rcases List.mem_cons.mp hm with h | h
          · exact absurd h (by simp)
          · exact hf' hfail t tm h
      | some t =>
        dsimp only
        by_cases ht : t = ""
        · rw [if_pos ht]
          obtain ⟨evs', he', hc', htm', hf'⟩ :=
            ih (now + min (oracle idx).1 (min bgTryTimeoutMs (max 100 (deadline - now))) + min sleep 2000)
              (sleep * 8 / 5) (idx + 1) hsleep' (by omega) (by omega)
          refine ⟨BgEvent.call idx now :: evs', by rw [he']; rfl, ?_, ?_, ?_⟩
          · simp [countCallbacks, List.countP_cons] at hc' ⊢
            exact hc'
          · intro t tm hm
            rcases List.mem_cons.mp hm with h | h
            · exact absurd h (by simp)
            · exact htm' t tm h
          · intro hfail t tm hm
            rcases List.mem_cons.mp hm with h | h
            · exact absurd h (by simp)
            · exact hf' hfail t tm h
        · rw [if_neg ht]
          refine ⟨[BgEvent.call idx now,
            BgEvent.callback t (now + min (oracle idx).1 (min bgTryTimeoutMs (max 100 (deadline - now))))],
            rfl, rfl, ?_, ?_⟩
          · intro t' tm hm
            rcases List.mem_cons.mp hm with h | h
            · exact absurd h (by simp)
            · rcases List.mem_cons.mp h with h2 | h2
              · obtain ⟨h3, h4⟩ := BgEvent.callback.inj h2
                omega
              · simp at h2
          · intro hfail t' tm hm
            rw [hfail idx] at hres
            simp at hres
    · simp only [bg_worker_loop]
      rw [if_neg hnow]
      refine ⟨[BgEvent.callback congestedFallback now], rfl, rfl, ?_, ?_⟩
      · intro t tm hm
        rcases List.mem_cons.mp hm with h | h
        · obtain ⟨h3, h4⟩ := BgEvent.callback.inj h
          omega
        · simp at h
      · intro _ t tm hm
        rcases List.mem_cons.mp hm with h | h
        · exact (BgEvent.callback.inj h).1
        · simp at h

/-!
## Shared lemmas
-/

/-- Strike escalation only touches `strikes`, `strike_exp` and `ban_exp`;
the burst list and the minute/hour/day buckets are untouched. -/
theorem strikeEscalate_frame (cfg : RLConfig) (now : Nat) (u : UserState) :
    (strikeEscalate cfg now u).2.m = u.m ∧ (strikeEscalate cfg now u).2.h = u.h ∧
    (strikeEscalate cfg now u).2.d = u.d ∧ (strikeEscalate cfg now u).2.burst = u.burst := by
  unfold strikeEscalate
  simp only []
  split <;> split <;> simp_all

/-- On every webhook path the returned store is the original store with the
derived user key's bucket replaced by the rate-limit check's output. -/
theorem webhook_store_eq (cfg : RLConfig) (tpt : String → String) (oracle : Nat → Option String)
    (now : Nat) (store : J → UserState) (payload : J) :
    (webhook cfg tpt oracle now store payload).2.1 =
      Function.update store (userKeyOf payload)
        (rate_limit_check_and_message cfg now (store (userKeyOf payload))).2 := by
  unfold webhook
  dsimp only
  split
  · split
    · rfl
    · split <;> rfl
  · rfl

/-- A webhook request from a user with an active ban: the full result is the
ban denial envelope, the untouched store, and no side effects. -/
theorem webhook_banned_eq (cfg : RLConfig) (tpt : String → String) (oracle : Nat → Option String)
    (now : Nat) (store : J → UserState) (payload : J)
    (h : now < (store (userKeyOf payload)).ban_exp) :
    webhook cfg tpt oracle now store payload =
      (KResp.text (applyTpt tpt (banMsgOf cfg ((store (userKeyOf payload)).ban_exp - now))),
        store, ⟨0, false⟩) := by
  have hrl : rate_limit_check_and_message cfg now (store (userKeyOf payload)) =
      ((false, some (banMsgOf cfg ((store (userKeyOf payload)).ban_exp - now))),
        store (userKeyOf payload)) := by
    unfold rate_limit_check_and_message
    rw [if_pos h]
  unfold webhook
  dsimp only
  rw [hrl]
  simp [kakao_text, Function.update_eq_self]

/-- A non-failing store makes `_redis_incr_with_ttl` succeed, and the store
stays non-failing. -/
theorem rIncrWithTtl_ok (now : Nat) (st : RStore) (k : RKey) (w : Nat)
    (h : st.failing = false) :
    ∃ c st2, rIncrWithTtl now st k w = Except.ok (c, st2) ∧ st2.failing = false := by
  unfold rIncrWithTtl
  rw [h]
  simp only [Bool.false_eq_true, if_false]
  split
  · exact ⟨_, _, rfl, rfl⟩
  · exact ⟨_, _, rfl, rfl⟩

/-- A non-failing store makes `_redis_setex` succeed, and the store stays
non-failing. -/
theorem rSetex_ok (now : Nat) (st : RStore) (k : RKey) (secs v : Nat)
    (h : st.failing = false) :
    ∃ st2, rSetex now st k secs v = Except.ok st2 ∧ st2.failing = false := by
  unfold rSetex
  rw [h]
  simp only [Bool.false_eq_true, if_false]
  exact ⟨_, rfl, rfl⟩

/-- With a non-failing store the Redis-backed rate-limit check raises no
exception on any branch. -/
theorem rate_limit_check_redis_ok (cfg : RLConfig) (now : Nat) (st : RStore) (user : J)
    (h : st.failing = false) :
    ∃ r, rate_limit_check_redis cfg now st user = Except.ok r := by
  unfold rate_limit_check_redis
  by_cases hban : 0 < rTtl now st ("ban", user)
  · rw [if_pos hban]
    exact ⟨_, rfl⟩
  · rw [if_neg hban]
    obtain ⟨c1, st1, he1, hf1⟩ := rIncrWithTtl_ok now st ("burst", user) cfg.burstS h
    rw [he1]
    dsimp only [Bind.bind, Except.instMonad, Except.bind]
    by_cases hb : c1 > cfg.burstN
    · rw [if_pos hb]
      obtain ⟨st2, he2, hf2⟩ :=
        rSetex_ok now st1 ("str", user) (cfg.strikeWindowDays * 86400)
          (rGetInt now st1 ("str", user) 0 + 1) hf1
      rw [he2]
      dsimp only [Bind.bind, Except.instMonad, Except.bind]
      by_cases hs : rGetInt now st1 ("str", user) 0 + 1 ≥ 2
      · rw [if_pos hs]
        obtain ⟨st3, he3, hf3⟩ := rSetex_ok now st2 ("ban", user) (cfg.banDays * 86400) 1 hf2
        rw [he3]
        exact ⟨_, rfl⟩
      · rw [if_neg hs]
        obtain ⟨st3, he3, hf3⟩ := rSetex_ok now st2 ("ban", user) cfg.cooldownShort 1 hf2
        rw [he3]
        exact ⟨_, rfl⟩
    · rw [if_neg hb]
      obtain ⟨c2, st2, he2, hf2⟩ := rIncrWithTtl_ok now st1 ("m", user) 60 hf1
      rw [he2]
      dsimp only [Bind.bind, Except.instMonad, Except.bind]
      by_cases hm : c2 > cfg.perMin
      · rw [if_pos hm]
        obtain ⟨st3, he3, hf3⟩ :=
          rSetex_ok now st2 ("str", user) (cfg.strikeWindowDays * 86400)
            (rGetInt now st2 ("str", user) 0 + 1) hf2
        rw [he3]
        dsimp only [Bind.bind, Except.instMonad, Except.bind]
        by_cases hs : rGetInt now st2 ("str", user) 0 + 1 ≥ 2
        · rw [if_pos hs]
          obtain ⟨st4, he4, hf4⟩ := rSetex_ok now st3 ("ban", user) (cfg.banDays * 86400) 1 hf3
          rw [he4]
          exact ⟨_, rfl⟩
        · rw [if_neg hs]
          obtain ⟨st4, he4, hf4⟩ := rSetex_ok now st3 ("ban", user) cfg.cooldownShort 1 hf3
          rw [he4]
          exact ⟨_, rfl⟩
      · rw [if_neg hm]
        obtain ⟨c3, st3, he3, hf3⟩ := rIncrWithTtl_ok now st2 ("h", user) 3600 hf2
        rw [he3]
        dsimp only [Bind.bind, Except.instMonad, Except.bind]
        by_cases hh : c3 > cfg.perHour
        · rw [if_pos hh]
          obtain ⟨st4, he4, hf4⟩ := rSetex_ok now st3 ("ban", user) cfg.cooldownShort 1 hf3
          rw [he4]
          exact ⟨_, rfl⟩
        · rw [if_neg hh]
          obtain ⟨c4, st4, he4, hf4⟩ := rIncrWithTtl_ok now st3 ("d", user) 86400 hf3
          rw [he4]
          dsimp only [Bind.bind, Except.instMonad, Except.bind]
          by_cases hd : c4 > cfg.perDay
          · rw [if_pos hd]
            obtain ⟨st5, he5, hf5⟩ := rSetex_ok now st4 ("ban", user) (cfg.banDays * 86400) 1 hf4
            rw [he5]
            exact ⟨_, rfl⟩
          · rw [if_neg hd]
            exact ⟨_, rfl⟩

/-- With a non-failing store the Redis-configured webhook handler raises no
exception: every path produces a 200 response value. -/
theorem webhook_redis_ok (cfg : RLConfig) (tpt : String → String) (oracle : Nat → Option String)
    (now : Nat) (st : RStore) (payload : J)
    (h : st.failing = false) :
    ∃ r, webhook_redis cfg tpt oracle now st payload = Except.ok r := by
  unfold webhook_redis
  dsimp only
  obtain ⟨r0, he0⟩ := rate_limit_check_redis_ok cfg now st (userKeyOf payload) h
  rw [he0]
  dsimp only [Bind.bind, Except.instMonad, Except.bind]
  split
  · split
    · exact ⟨_, rfl⟩
    · split
      · exact ⟨_, rfl⟩
      · exact ⟨_, rfl⟩
  · exact ⟨_, rfl⟩

/-!
## Claim theorems
-/

/-- Claim C1: for every user key, while a ban record is active (its expiry
strictly in the future), the rate-limit check denies the request with the
ban message before any other counter is consulted or incremented (the
user's whole bucket state, and hence the store, is returned unchanged), and
the webhook handler returns that denial with zero backend calls and no
spawned worker. -/
theorem C1_ban_short_circuits (cfg : RLConfig) (tpt : String → String)
    (oracle : Nat → Option String) (now : Nat) (store : J → UserState) (payload : J)
    (h : now < (store (userKeyOf payload)).ban_exp) :
    webhook cfg tpt oracle now store payload =
      (KResp.text (applyTpt tpt (banMsgOf cfg ((store (userKeyOf payload)).ban_exp - now))),
        store, ⟨0, false⟩) :=
  webhook_banned_eq cfg tpt oracle now store payload h

/-- Witness for C1 at a concrete banned state. -/
theorem C1_witness :
    webhook defaultRL id (fun _ => none) 100
        (fun _ => { freshUser with ban_exp := 200 }) (J.obj []) =
      (KResp.text (applyTpt id (banMsgOf defaultRL 100)),
        (fun _ => { freshUser with ban_exp := 200 }), ⟨0, false⟩) :=
  C1_ban_short_circuits defaultRL id (fun _ => none) 100
    (fun _ => { freshUser with ban_exp := 200 }) (J.obj []) (by decide)

/-- Claim C2 counterexample: with a failing shared store, the webhook
handler does not produce a 200 envelope — the exception raised inside the
rate-limit check (`_redis_incr_with_ttl`) propagates uncaught out of the
handler, since neither the handler nor the app registers any exception
boundary. -/
theorem C2_counterexample :
    webhook_redis defaultRL id (fun _ => none) 100
      { failing := true, data := fun _ => none } (J.obj []) = Except.error () := rfl

/-- Claim C2 (amended): on every path on which the storage backend does not
raise, the webhook returns an HTTP-200 platform envelope; an exception from
a failing storage backend inside the rate-limit check, however, propagates
past the handler (there is no outermost exception boundary converting it to
a fixed reply). -/
theorem C2_envelope_unless_store_raises (cfg : RLConfig) (tpt : String → String)
    (oracle : Nat → Option String) (now : Nat) (st : RStore) (payload : J)
    (h : st.failing = false) :
    ∃ r, webhook_redis cfg tpt oracle now st payload = Except.ok r :=
  webhook_redis_ok cfg tpt oracle now st payload h

/-- Witness for C2 (amended) at a concrete healthy store. -/
theorem C2_witness :
    ∃ r, webhook_redis defaultRL id (fun _ => none) 100
        { failing := false, data := fun _ => none } (J.obj []) = Except.ok r :=
  C2_envelope_unless_store_raises defaultRL id (fun _ => none) 100
    { failing := false, data := fun _ => none } (J.obj []) rfl

/-- Claim C3 counterexample: a user with one prior strike inside the strike
window who exceeds the per-hour quota.  The claim predicts strike
escalation (second strike, hence the 30-day long ban); the code leaves the
strike counter untouched and imposes only the 600-second short cooldown. -/
theorem C3_counterexample :
    (rate_limit_check_and_message defaultRL 1000
        { ban_exp := 0, burst := [], m := ⟨0, 2000⟩, h := ⟨200, 5000⟩, d := ⟨5, 9000⟩
        , strikes := 1, strike_exp := 500000 }).1 = (false, some (hourLimitMsg defaultRL)) ∧
    (rate_limit_check_and_message defaultRL 1000
        { ban_exp := 0, burst := [], m := ⟨0, 2000⟩, h := ⟨200, 5000⟩, d := ⟨5, 9000⟩
        , strikes := 1, strike_exp := 500000 }).2.strikes = 1 ∧
    (rate_limit_check_and_message defaultRL 1000
        { ban_exp := 0, burst := [], m := ⟨0, 2000⟩, h := ⟨200, 5000⟩, d := ⟨5, 9000⟩
        , strikes := 1, strike_exp := 500000 }).2.ban_exp = 1000 + defaultRL.cooldownShort ∧
    1000 + defaultRL.cooldownShort ≠ 1000 + defaultRL.banDays * 86400 := by
  decide

/-- Claim C3 (amended): for a user not banned, not bursting and within the
minute quota, a request that exceeds the per-hour quota is denied with the
hour message and only the short cooldown ban; the strike counter and its
window are left untouched (strike escalation applies to minute-quota and
burst violations only). -/
theorem C3_hour_quota_cooldown_only (cfg : RLConfig) (now : Nat) (u : UserState)
    (hban : ¬ now < u.ban_exp)
    (hburst : (u.burst.filter (fun t => now - t ≤ cfg.burstS)).length + 1 ≤ cfg.burstN)
    (hm : ¬ now > u.m.exp) (hmc : u.m.count < cfg.perMin)
    (hh : ¬ now > u.h.exp) (hhc : cfg.perHour ≤ u.h.count) :
    (rate_limit_check_and_message cfg now u).1 = (false, some (hourLimitMsg cfg)) ∧
    (rate_limit_check_and_message cfg now u).2.strikes = u.strikes ∧
    (rate_limit_check_and_message cfg now u).2.strike_exp = u.strike_exp ∧
    (rate_limit_check_and_message cfg now u).2.ban_exp = now + cfg.cooldownShort := by
  have hlen : ¬ ((u.burst.filter (fun t => now - t ≤ cfg.burstS) ++ [now]).length > cfg.burstN) := by
    simp only [List.length_append, List.length_singleton]
    omega
  unfold rate_limit_check_and_message
  dsimp only
  rw [if_neg hban, if_neg hlen]
  simp only [incr_mem_bucket]
  rw [if_neg hm]
  rw [if_neg (by omega : ¬ u.m.count + 1 > cfg.perMin)]
  rw [if_neg hh]
  rw [if_pos (by omega : u.h.count + 1 > cfg.perHour)]
  exact ⟨rfl, rfl, rfl, rfl⟩

/-- Witness for C3 (amended) at the counterexample state. -/
theorem C3_witness :
    (rate_limit_check_and_message defaultRL 1000
        { ban_exp := 0, burst := [], m := ⟨0, 2000⟩, h := ⟨200, 5000⟩, d := ⟨5, 9000⟩
        , strikes := 1, strike_exp := 500000 }).1 = (false, some (hourLimitMsg defaultRL)) ∧
    (rate_limit_check_and_message defaultRL 1000
        { ban_exp := 0, burst := [], m := ⟨0, 2000⟩, h := ⟨200, 5000⟩, d := ⟨5, 9000⟩
        , strikes := 1, strike_exp := 500000 }).2.strikes = 1 ∧
    (rate_limit_check_and_message defaultRL 1000
        { ban_exp := 0, burst := [], m := ⟨0, 2000⟩, h := ⟨200, 5000⟩, d := ⟨5, 9000⟩
        , strikes := 1, strike_exp := 500000 }).2.strike_exp = 500000 ∧
    (rate_limit_check_and_message defaultRL 1000
        { ban_exp := 0, burst := [], m := ⟨0, 2000⟩, h := ⟨200, 5000⟩, d := ⟨5, 9000⟩
        , strikes := 1, strike_exp := 500000 }).2.ban_exp = 1000 + defaultRL.cooldownShort := by
  have h := C3_hour_quota_cooldown_only defaultRL 1000
    { ban_exp := 0, burst := [], m := ⟨0, 2000⟩, h := ⟨200, 5000⟩, d := ⟨5, 9000⟩
    , strikes := 1, strike_exp := 500000 }
    (by decide) (by decide) (by decide) (by decide) (by decide) (by decide)
  exact h

/-- Claim C4 counterexample: a synchronous request whose backend fails on
the first attempt but would succeed on the second.  The claim predicts a
final reply containing the backend's answer (up to 3 attempts); the code
makes exactly one attempt and replies with the fixed congestion fallback. -/
theorem C4_counterexample :
    (webhook defaultRL id (fun i => if i = 0 then none else some "백엔드 정답") 50
        (fun _ => freshUser)
        (J.obj [("userRequest", J.obj [("utterance", J.str "질문입니다")])])).1 =
      KResp.text congestedFallback ∧
    (webhook defaultRL id (fun i => if i = 0 then none else some "백엔드 정답") 50
        (fun _ => freshUser)
        (J.obj [("userRequest", J.obj [("utterance", J.str "질문입니다")])])).2.2.backendCalls = 1 ∧
    congestedFallback ≠ "백엔드 정답" := by
  decide

/-- Claim C4 (amended): on the synchronous path (allowed user, non-empty
utterance, no callback address) the responder makes exactly one backend
attempt with the fixed sync timeout; the reply is that attempt's answer, or
the fixed fallback when it fails or is empty, and no later attempt is ever
consulted (the result depends only on the oracle's value at attempt 0). -/
theorem C4_single_sync_attempt (cfg : RLConfig) (tpt : String → String)
    (oracle oracle2 : Nat → Option String) (now : Nat) (store : J → UserState)
    (payload : J) (u0 : String)
    (hallow : (rate_limit_check_and_message cfg now (store (userKeyOf payload))).1.1 = true)
    (hu : pick_utter payload = some u0)
    (hcb : cbTruthy payload = false)
    (hsame : oracle2 0 = oracle 0) :
    (webhook cfg tpt oracle now store payload).2.2.backendCalls = 1 ∧
    (webhook cfg tpt oracle now store payload).1 =
      KResp.text (applyTpt tpt (match oracle 0 with
        | some s => if s = "" then congestedFallback else s
        | none => congestedFallback)) ∧
    (webhook cfg tpt oracle2 now store payload).1 =
      (webhook cfg tpt oracle now store payload).1 := by
  refine ⟨?_, ?_, ?_⟩ <;>
  · unfold webhook
    dsimp only
    simp only [hallow, hu, hcb, hsame]
    try rfl

/-- Witness for C4 (amended): the backend answers on attempt 0, a second
oracle agreeing on attempt 0 gives the same reply. -/
theorem C4_witness :
    (webhook defaultRL id (fun i => if i = 0 then some "응답" else none) 7
        (fun _ => freshUser)
        (J.obj [("userRequest", J.obj [("utterance", J.str "질문")])])).2.2.backendCalls = 1 ∧
    (webhook defaultRL id (fun i => if i = 0 then some "응답" else none) 7
        (fun _ => freshUser)
        (J.obj [("userRequest", J.obj [("utterance", J.str "질문")])])).1 =
      KResp.text (applyTpt id (match (fun (i : Nat) => if i = 0 then some "응답" else none) 0 with
        | some s => if s = "" then congestedFallback else s
        | none => congestedFallback)) ∧
    (webhook defaultRL id (fun _ => some "응답") 7
        (fun _ => freshUser)
        (J.obj [("userRequest", J.obj [("utterance", J.str "질문")])])).1 =
      (webhook defaultRL id (fun i => if i = 0 then some "응답" else none) 7
        (fun _ => freshUser)
        (J.obj [("userRequest", J.obj [("utterance", J.str "질문")])])).1 :=
  C4_single_sync_attempt defaultRL id (fun i => if i = 0 then some "응답" else none)
    (fun _ => some "응답") 7 (fun _ => freshUser)
    (J.obj [("userRequest", J.obj [("utterance", J.str "질문")])]) "질문"
    (by decide) (by decide) (by decide) (by decide)

/-- Claim C5 counterexample: with a backend that always fails instantly,
the single callback delivery starts at 51239 ms, strictly after the 50000
ms budget deadline — the deadline bounds the start of the last backend
attempt, not the delivery itself. -/
theorem C5_counterexample :
    (bg_worker (fun _ => ((0 : Nat), (none : Option String)))).map callbackTimes =
      some [51239] ∧
    bgDeadlineMs < 51239 := by
  decide

/-- Claim C5 (amended): every invocation of the background callback worker
makes exactly one callback delivery attempt (never zero, never two); the
delivery starts no later than 2100 ms after the budget deadline (the
100 ms attempt-timeout floor plus the 2000 ms sleep cap), though possibly
after the deadline itself; and when every backend call fails the delivered
text is the fixed fallback string. -/
theorem C5_exactly_one_callback (oracle : Nat → Nat × Option String) :
    ∃ evs, bg_worker oracle = some evs ∧ countCallbacks evs = 1 ∧
      (∀ t tm, BgEvent.callback t tm ∈ evs → tm ≤ bgDeadlineMs + 2100) ∧
      ((∀ i, (oracle i).2 = none) →
        ∀ t tm, BgEvent.callback t tm ∈ evs → t = congestedFallback) := by
  obtain ⟨evs, he, hc, htm, hf⟩ :=
    bg_worker_loop_spec oracle bgDeadlineMs ((bgDeadlineMs + 349) / 350 + 1) 0 350 0
      (le_refl 350) (by decide) (by decide)
  exact ⟨evs, he, hc, htm, hf⟩

/-- Witness for C5 (amended) with the always-failing backend. -/
theorem C5_witness :
    ∃ evs, bg_worker (fun _ => ((0 : Nat), (none : Option String))) = some evs ∧
      countCallbacks evs = 1 ∧
      (∀ t tm, BgEvent.callback t tm ∈ evs →
        t = congestedFallback ∧ tm ≤ bgDeadlineMs + 2100) := by
  obtain ⟨evs, he, hc, htm, hf⟩ := C5_exactly_one_callback (fun _ => (0, none))
  exact ⟨evs, he, hc, fun t tm hm => ⟨hf (fun i => rfl) t tm hm, htm t tm hm⟩⟩

/-- Claim C6: for a user who is not banned and not bursting, with all three
quota windows unexpired: any bucket's first increment after window expiry
yields count 1 (not 0); the request is allowed exactly when all three
counters are strictly below their limits (so the Nth request in a window is
allowed and the (N+1)th is denied); the minute counter advances by exactly
one per check; and a counter at most at its limit never exceeds limit + 1
by the time a denial is returned. -/
theorem C6_window_counters (cfg : RLConfig) (now : Nat) (u : UserState)
    (hban : ¬ now < u.ban_exp)
    (hburst : (u.burst.filter (fun t => now - t ≤ cfg.burstS)).length + 1 ≤ cfg.burstN)
    (hmw : ¬ now > u.m.exp) (hhw : ¬ now > u.h.exp) (hdw : ¬ now > u.d.exp) :
    (∀ (b : MemBucket) (w n : Nat), n > b.exp → (incr_mem_bucket b w n).1 = 1) ∧
    ((rate_limit_check_and_message cfg now u).1.1 = true ↔
      (u.m.count < cfg.perMin ∧ u.h.count < cfg.perHour ∧ u.d.count < cfg.perDay)) ∧
    ((rate_limit_check_and_message cfg now u).2.m.count = u.m.count + 1) ∧
    (u.m.count ≤ cfg.perMin →
      (rate_limit_check_and_message cfg now u).2.m.count ≤ cfg.perMin + 1) := by
  have hlen : ¬ ((u.burst.filter (fun t => now - t ≤ cfg.burstS) ++ [now]).length > cfg.burstN) := by
    simp only [List.length_append, List.length_singleton]
    omega
  have hreset : ∀ (b : MemBucket) (w n : Nat), n > b.exp → (incr_mem_bucket b w n).1 = 1 := by
    intro b w n hn
    simp [incr_mem_bucket, hn]
  have hkey : ((rate_limit_check_and_message cfg now u).1.1 = true ↔
      (u.m.count < cfg.perMin ∧ u.h.count < cfg.perHour ∧ u.d.count < cfg.perDay)) ∧
      ((rate_limit_check_and_message cfg now u).2.m.count = u.m.count + 1) := by
    unfold rate_limit_check_and_message
    dsimp only
    rw [if_neg hban, if_neg hlen]
    simp only [incr_mem_bucket]
    rw [if_neg hmw]
    by_cases hm1 : u.m.count + 1 > cfg.perMin
    · rw [if_pos hm1]
      have hf := strikeEscalate_frame cfg now
        { u with burst := u.burst.filter (fun t => now - t ≤ cfg.burstS) ++ [now],
                 m := { count := u.m.count + 1, exp := u.m.exp } }
      constructor
      · split <;> simp <;> omega
      · split <;> simp_all
    · rw [if_neg hm1, if_neg hhw]
      by_cases hh1 : u.h.count + 1 > cfg.perHour
      · rw [if_pos hh1]
        constructor
        · simp
          omega
        · rfl
      · rw [if_neg hh1, if_neg hdw]
        by_cases hd1 : u.d.count + 1 > cfg.perDay
        · rw [if_pos hd1]
          constructor
          · simp
            omega
          · rfl
        · rw [if_neg hd1]
          constructor
          · simp
            omega
          · rfl
  refine ⟨hreset, hkey.1, hkey.2, ?_⟩
  intro hc
  rw [hkey.2]
  omega

/-- Witness for C6: the 10th request in a fresh minute window is allowed
and leaves the counter at 10. -/
theorem C6_witness :
    ((rate_limit_check_and_message defaultRL 10 ⟨0, [], ⟨9, 50⟩, ⟨0, 50⟩, ⟨0, 50⟩, 0, 0⟩).1.1
        = true ↔ (9 < 10 ∧ 0 < 200 ∧ 0 < 1000)) ∧
    ((rate_limit_check_and_message defaultRL 10 ⟨0, [], ⟨9, 50⟩, ⟨0, 50⟩, ⟨0, 50⟩, 0, 0⟩).2.m.count
        = 10) := by
  have h := C6_window_counters defaultRL 10 ⟨0, [], ⟨9, 50⟩, ⟨0, 50⟩, ⟨0, 50⟩, 0, 0⟩
    (by decide) (by decide) (by decide) (by decide) (by decide)
  exact ⟨h.2.1, h.2.2.1⟩

/-- Claim C7: utterance resolution rejects the literal placeholder
`"@text"` in favour of real text (the given payload resolves to
`"hello"`); and when both candidate fields are placeholders or empty, the
resolution yields no text, and the allowed webhook request is answered with
the clarification prompt with zero backend calls. -/
theorem C7_utterance_resolution (cfg : RLConfig) (tpt : String → String)
    (oracle : Nat → Option String) (now : Nat) (store : J → UserState) (payload : J)
    (h1 : cleanUtter (jpath payload ["action", "params", "usrtext"]) = none)
    (h2 : cleanUtter (jpath payload ["userRequest", "utterance"]) = none)
    (hallow : (rate_limit_check_and_message cfg now (store (userKeyOf payload))).1.1 = true) :
    pick_utter (J.obj [("action", J.obj [("params", J.obj [("usrtext", J.str "@text")])]),
      ("userRequest", J.obj [("utterance", J.str "hello")])]) = some "hello" ∧
    pick_utter payload = none ∧
    (webhook cfg tpt oracle now store payload).1 = KResp.text (applyTpt tpt clarifyText) ∧
    (webhook cfg tpt oracle now store payload).2.2 = ⟨0, false⟩ := by
  have hpu : pick_utter payload = none := by
    unfold pick_utter
    rw [h1, h2]
  refine ⟨by decide, hpu, ?_, ?_⟩ <;>
  · unfold webhook
    dsimp only
    simp only [hallow, hpu]
    try rfl

/-- Witness for C7: a payload whose `usrtext` is the placeholder and whose
`utterance` is whitespace resolves to nothing and gets the clarification
reply. -/
theorem C7_witness :
    pick_utter (J.obj [("action", J.obj [("params", J.obj [("usrtext", J.str "@text")])]),
      ("userRequest", J.obj [("utterance", J.str " ")])]) = none ∧
    (webhook defaultRL id (fun _ => none) 5 (fun _ => freshUser)
        (J.obj [("action", J.obj [("params", J.obj [("usrtext", J.str "@text")])]),
          ("userRequest", J.obj [("utterance", J.str " ")])])).1 =
      KResp.text (applyTpt id clarifyText) ∧
    (webhook defaultRL id (fun _ => none) 5 (fun _ => freshUser)
        (J.obj [("action", J.obj [("params", J.obj [("usrtext", J.str "@text")])]),
          ("userRequest", J.obj [("utterance", J.str " ")])])).2.2 = ⟨0, false⟩ := by
  have h := C7_utterance_resolution defaultRL id (fun _ => none) 5 (fun _ => freshUser)
    (J.obj [("action", J.obj [("params", J.obj [("usrtext", J.str "@text")])]),
      ("userRequest", J.obj [("utterance", J.str " ")])])
    (by decide) (by decide) (by decide)
  exact ⟨h.2.1, h.2.2.1, h.2.2.2⟩

/-- Claim C8: for the backend response `{"data": {"response": "42"}}` the
answer extraction returns `"42"` — no prioritized top-level key matches,
and the scan inside the nested `data` object matches `"response"`. -/
theorem C8_extract_answer_nested_data :
    extract_answer (J.obj [("data", J.obj [("response", J.str "42")])]) = some "42" := by
  decide

/-- Claim C9: a payload whose nested user identifier is absent or falsy is
keyed as `"anon"`: the derived user key is the shared sentinel, the check
touches no other key's state, and during an active ban recorded for
`"anon"` the request is denied with the ban message, the store unchanged
and zero backend calls. -/
theorem C9_anonymous_shared_key (cfg : RLConfig) (tpt : String → String)
    (oracle : Nat → Option String) (now : Nat) (store : J → UserState) (payload : J)
    (h : anonLike payload = true) :
    userKeyOf payload = J.str "anon" ∧
    (∀ k, k ≠ J.str "anon" → (webhook cfg tpt oracle now store payload).2.1 k = store k) ∧
    (now < (store (J.str "anon")).ban_exp →
      webhook cfg tpt oracle now store payload =
        (KResp.text (applyTpt tpt (banMsgOf cfg ((store (J.str "anon")).ban_exp - now))),
          store, ⟨0, false⟩)) := by
  have hkey : userKeyOf payload = J.str "anon" := by
    unfold userKeyOf
    unfold anonLike at h
    cases hj : jpath payload ["userRequest", "user", "id"] with
    | none => rfl
    | some v =>
      rw [hj] at h
      simp only [Bool.not_eq_true'] at h
      simp [h]
  refine ⟨hkey, ?_, ?_⟩
  · intro k hk
    rw [webhook_store_eq, hkey]
    exact Function.update_noteq hk _ _
  · intro hban
    have hb := webhook_banned_eq cfg tpt oracle now store payload (by rw [hkey]; exact hban)
    rw [hkey] at hb
    exact hb

/-- Witness for C9: an empty-string user id is keyed as `"anon"`, and the
ban recorded for `"anon"` denies the request. -/
theorem C9_witness :
    userKeyOf (J.obj [("userRequest", J.obj [("user", J.obj [("id", J.str "")])])])
      = J.str "anon" ∧
    webhook defaultRL id (fun _ => none) 100
        (fun k => if k = J.str "anon" then { freshUser with ban_exp := 300 } else freshUser)
        (J.obj [("userRequest", J.obj [("user", J.obj [("id", J.str "")])])]) =
      (KResp.text (applyTpt id (banMsgOf defaultRL 200)),
        (fun k => if k = J.str "anon" then { freshUser with ban_exp := 300 } else freshUser),
        ⟨0, false⟩) := by
  have h := C9_anonymous_shared_key defaultRL id (fun _ => none) 100
    (fun k => if k = J.str "anon" then { freshUser with ban_exp := 300 } else freshUser)
    (J.obj [("userRequest", J.obj [("user", J.obj [("id", J.str "")])])]) (by decide)
  exact ⟨h.1, h.2.2 (by decide)⟩

/-- Claim C10: a denial at the ban stage leaves the user's whole bucket
state unchanged, and a denial at the burst stage leaves the minute, hour
and day quota buckets unchanged — early-denied requests contribute nothing
to those windows. -/
theorem C10_early_denial_frame (cfg : RLConfig) (now : Nat) (u : UserState) :
    (now < u.ban_exp → (rate_limit_check_and_message cfg now u).2 = u) ∧
    (¬ now < u.ban_exp →
      (u.burst.filter (fun t => now - t ≤ cfg.burstS)).length + 1 > cfg.burstN →
      (rate_limit_check_and_message cfg now u).1.1 = false ∧
      (rate_limit_check_and_message cfg now u).2.m = u.m ∧
      (rate_limit_check_and_message cfg now u).2.h = u.h ∧
      (rate_limit_check_and_message cfg now u).2.d = u.d) := by
  constructor
  · intro h
    unfold rate_limit_check_and_message
    rw [if_pos h]
  · intro hban hb
    have hlen : (u.burst.filter (fun t => now - t ≤ cfg.burstS) ++ [now]).length > cfg.burstN := by
      simp only [List.length_append, List.length_singleton]
      omega
    unfold rate_limit_check_and_message
    dsimp only
    rw [if_neg hban, if_pos hlen]
    have hf := strikeEscalate_frame cfg now
      { u with burst := u.burst.filter (fun t => now - t ≤ cfg.burstS) ++ [now] }
    refine ⟨?_, ?_, ?_, ?_⟩ <;> split <;> simp_all

/-- Witness for C10: a banned user's state is returned untouched, and a
bursting user's quota buckets are untouched by the burst denial. -/
theorem C10_witness :
    ((rate_limit_check_and_message defaultRL 100 ⟨200, [], ⟨0, 0⟩, ⟨0, 0⟩, ⟨0, 0⟩, 0, 0⟩).2
        = ⟨200, [], ⟨0, 0⟩, ⟨0, 0⟩, ⟨0, 0⟩, 0, 0⟩) ∧
    ((rate_limit_check_and_message defaultRL 10
        ⟨0, [10, 10, 10, 10, 10, 10, 10, 10, 10, 10], ⟨3, 50⟩, ⟨4, 50⟩, ⟨5, 50⟩, 0, 0⟩).1.1
        = false ∧
      (rate_limit_check_and_message defaultRL 10
        ⟨0, [10, 10, 10, 10, 10, 10, 10, 10, 10, 10], ⟨3, 50⟩, ⟨4, 50⟩, ⟨5, 50⟩, 0, 0⟩).2.m
        = ⟨3, 50⟩ ∧
      (rate_limit_check_and_message defaultRL 10
        ⟨0, [10, 10, 10, 10, 10, 10, 10, 10, 10, 10], ⟨3, 50⟩, ⟨4, 50⟩, ⟨5, 50⟩, 0, 0⟩).2.h
        = ⟨4, 50⟩ ∧
      (rate_limit_check_and_message defaultRL 10
        ⟨0, [10, 10, 10, 10, 10, 10, 10, 10, 10, 10], ⟨3, 50⟩, ⟨4, 50⟩, ⟨5, 50⟩, 0, 0⟩).2.d
        = ⟨5, 50⟩) := by
  constructor
  · exact (C10_early_denial_frame defaultRL 100 ⟨200, [], ⟨0, 0⟩, ⟨0, 0⟩, ⟨0, 0⟩, 0, 0⟩).1
      (by decide)
  · exact (C10_early_denial_frame defaultRL 10
      ⟨0, [10, 10, 10, 10, 10, 10, 10, 10, 10, 10], ⟨3, 50⟩, ⟨4, 50⟩, ⟨5, 50⟩, 0, 0⟩).2
      (by decide) (by decide)
